import Mathlib

/-!
Verification of the WSDL extraction pass in `src/wsdl.rs` of the `savon`
repository.  The extractor walks a generic XML element tree (produced by the
external `xmltree` crate) and synthesizes a typed model (`Wsdl`) of the
document's types, messages and operations.

The embedding below mirrors `parse` and its helpers.  XML trees appear as the
inductive `Node` (an element with a tag name, an attribute map and children,
or a non-element node such as text).  Rust `HashMap`s appear as association
lists with last-write-wins `lookup` semantics (`hmInsert` prepends the new
binding).  Fallible Rust code returning `Result<_, WsdlError>` appears as
`PResult`; the extra `PResult.panic` constructor records the three places
where the source aborts the process instead of returning an error
(`unwrap` on a message's first part, `expect` on a non-numeric occurrence
value, and `unimplemented!` on a non-`complexType` body).
-/

namespace Savon

/-- A node of the XML tree produced by the external XML parser: either an
element (tag name, attribute list, children) or a non-element node (text,
comment, ...), which the extractor always filters out via `asElement`. -/
inductive Node where
  | element (name : String) (attributes : List (String × String)) (children : List Node)
  | text (content : String)

/-- Models `xmltree::XMLNode::as_element`: `some` exactly on element nodes. -/
def Node.asElement : Node → Option Node
  | e@(.element _ _ _) => some e
  | .text _ => none

/-- Tag name of an element node (the extractor only reads it on elements). -/
def Node.name : Node → String
  | .element n _ _ => n
  | .text _ => ""

/-- Attribute map of an element node. -/
def Node.attributes : Node → List (String × String)
  | .element _ a _ => a
  | .text _ => []

/-- Child list of an element node. -/
def Node.children : Node → List Node
  | .element _ _ c => c
  | .text _ => []

/-- Models `element.attributes.get(k)` (attribute keys are unique in XML). -/
def Node.getAttr (n : Node) (k : String) : Option String :=
  n.attributes.lookup k

/-- Models `children.iter().filter_map(|c| c.as_element())`. -/
def Node.elemChildren (n : Node) : List Node :=
  n.children.filterMap Node.asElement

/-- Models `xmltree::Element::get_child(tag)`: the first child element whose
tag name matches. -/
def Node.getChild (n : Node) (tag : String) : Option Node :=
  n.elemChildren.find? (fun c => c.name == tag)

/-- Models `WsdlError` (`src/wsdl.rs` lines 6-13).  The `Parse` variant wraps
the external XML parser's error; our embedding starts from the parsed tree,
so the variant is carried but never produced. -/
inductive WsdlError where
  | Parse
  | ElementNotFound (tag : String)
  | AttributeNotFound (attr : String)
  | NotAnElement
  | Empty
deriving DecidableEq

/-- Outcome of a fallible extraction step: a value, a returned `WsdlError`,
or a process abort (`unwrap` / `expect` / `unimplemented!` in the source). -/
inductive PResult (α : Type) where
  | ok (a : α)
  | err (e : WsdlError)
  | panic (msg : String)
deriving DecidableEq

/-- Sequencing with the source's `?` propagation; panics also propagate
(they abort the whole process in the source). -/
def PResult.bind {α β : Type} : PResult α → (α → PResult β) → PResult β
  | .ok a, f => f a
  | .err e, _ => .err e
  | .panic m, _ => .panic m

/-- Models `option.ok_or(e)?`. -/
def PResult.ofOption {α : Type} : Option α → WsdlError → PResult α
  | some a, _ => .ok a
  | none, e => .err e

/-- Models `option.unwrap()`: panics on `None`. -/
def PResult.unwrapOption {α : Type} : Option α → PResult α
  | some a => .ok a
  | none => .panic "called Option::unwrap on a None value"

/-- Models `SimpleType` (`src/wsdl.rs` lines 31-39). -/
inductive SimpleType where
  | Boolean
  | String
  | Float
  | Int
  | DateTime
  | Complex (s : String)
deriving DecidableEq

/-- Models `Occurence` (`src/wsdl.rs` lines 41-45); the `u32` payload is a
`Nat` kept below `2 ^ 32` by `parseU32`. -/
inductive Occurence where
  | Unbounded
  | Num (n : Nat)
deriving DecidableEq

/-- Models `TypeAttribute` (`src/wsdl.rs` lines 47-52). -/
structure TypeAttribute where
  nillable : Bool
  min_occurs : Option Occurence
  max_occurs : Option Occurence
deriving DecidableEq

/-- Models `ComplexType` (`src/wsdl.rs` lines 54-57); the field `HashMap`
is an association list built by `hmInsert`. -/
structure ComplexType where
  fields : List (String × (TypeAttribute × SimpleType))
deriving DecidableEq

/-- Models the Rust enum `Type` (`src/wsdl.rs` lines 59-63); named `Ty`
because `Type` is reserved in Lean. -/
inductive Ty where
  | Simple (s : SimpleType)
  | Complex (c : ComplexType)
deriving DecidableEq

/-- True exactly on the `Complex` variant of `Ty`. -/
def Ty.isComplex : Ty → Bool
  | .Complex _ => true
  | .Simple _ => false

/-- Models `Message` (`src/wsdl.rs` lines 65-69). -/
structure Message where
  part_name : String
  part_element : String
deriving DecidableEq

/-- Models `Operation` (`src/wsdl.rs` lines 71-77). -/
structure Operation where
  name : String
  input : Option String
  output : Option String
  faults : Option (List String)
deriving DecidableEq

/-- Models `Wsdl` (`src/wsdl.rs` lines 21-29); the three `HashMap`s are
association lists with `List.lookup` access. -/
structure Wsdl where
  name : String
  target_namespace : String
  types : List (String × Ty)
  messages : List (String × Message)
  operations : List (String × Operation)
deriving DecidableEq

/-- Models `HashMap::insert`: the new binding shadows any earlier one under
`List.lookup` (last write wins). -/
def hmInsert {α : Type} (m : List (String × α)) (k : String) (v : α) : List (String × α) :=
  (k, v) :: m

/-- Helper for `split_namespace`: drop every character up to and including
the first colon; `none` when there is no colon. -/
def dropThroughColon : List Char → Option (List Char)
  | [] => none
  | c :: rest => if c = ':' then some rest else dropThroughColon rest

/-- Models `split_namespace` (`src/wsdl.rs` lines 81-86): everything after
the first `:`, or the whole string when there is none. -/
def split_namespace (s : String) : String :=
  match dropThroughColon s.data with
  | none => s
  | some rest => String.mk rest

/-- Models Rust's `str::parse::<u32>()` as used on occurrence values: an
optional leading `+`, then one or more ASCII digits, rejecting overflow
past `2 ^ 32`; `none` is the `Err` case (which the source turns into a
panic via `expect`). -/
def parseU32 (s : String) : Option Nat :=
  let cs := match s.data with
    | '+' :: rest => rest
    | l => l
  if cs = [] then none
  else if cs.all (fun c => c.isDigit) then
    let n := cs.foldl (fun acc c => acc * 10 + (c.toNat - 48)) 0
    if n < 4294967296 then some n else none
  else none

/-- Models the `nillable` attribute match (`src/wsdl.rs` lines 152-156):
`Some("true")` is `true`, `Some("false")` and everything else is `false`. -/
def parseNillableAttr (a : Option String) : Bool :=
  match a with
  | some s => if s = "true" then true else false
  | none => false

/-- Models the `minOccurs` / `maxOccurs` attribute match (`src/wsdl.rs`
lines 158-171): absent is no bound, `"unbounded"` is the unbounded marker,
anything else must parse as a `u32` or the process panics. -/
def parseOccAttr (a : Option String) : PResult (Option Occurence) :=
  match a with
  | none => .ok none
  | some s =>
    if s = "unbounded" then .ok (some .Unbounded)
    else
      match parseU32 s with
      | some n => .ok (some (.Num n))
      | none => .panic "occurence should be a number"

/-- Models the `(min_occurs, max_occurs)` collapse match (`src/wsdl.rs`
lines 173-185): `(Num 0, Num 1)` forces `nillable = true` and clears both
bounds, `(Num 1, Num 1)` forces `nillable = false` and clears both bounds,
every other combination passes through unchanged. -/
def normalizeOcc (nillable : Bool) (mi ma : Option Occurence) : TypeAttribute :=
  if mi = some (.Num 0) ∧ ma = some (.Num 1) then ⟨true, none, none⟩
  else if mi = some (.Num 1) ∧ ma = some (.Num 1) then ⟨false, none, none⟩
  else ⟨nillable, mi, ma⟩

/-- The whole `TypeAttribute` computation for one field (`src/wsdl.rs`
lines 152-192) from the literal `nillable`, `minOccurs` and `maxOccurs`
attribute values. -/
def mkTypeAttribute (nilA minA maxA : Option String) : PResult TypeAttribute :=
  (parseOccAttr minA).bind fun mi =>
  (parseOccAttr maxA).bind fun ma =>
  .ok (normalizeOcc (parseNillableAttr nilA) mi ma)

/-- Models the `SimpleType` classification match (`src/wsdl.rs` lines
194-201) on an already namespace-stripped local name; string-literal
patterns are sequential equality tests. -/
def classify (s : String) : SimpleType :=
  if s = "boolean" then .Boolean
  else if s = "string" then .String
  else if s = "int" then .Int
  else if s = "float" then .Float
  else if s = "dateTime" then .DateTime
  else .Complex s

/-- The field type resolution: strip the namespace prefix, then classify. -/
def simpleTypeOf (field_type : String) : SimpleType :=
  classify (split_namespace field_type)

/-- Extraction of one field of a `complexType` body (`src/wsdl.rs` lines
143-202): required `name` and `type` attributes, then the attribute
normalization and type classification. -/
def extractField (field : Node) : PResult (String × (TypeAttribute × SimpleType)) :=
  (PResult.ofOption (field.getAttr "name") (.AttributeNotFound "name")).bind fun field_name =>
  (PResult.ofOption (field.getAttr "type") (.AttributeNotFound "type")).bind fun field_type =>
  (mkTypeAttribute (field.getAttr "nillable") (field.getAttr "minOccurs")
      (field.getAttr "maxOccurs")).bind fun ta =>
  .ok (field_name, (ta, simpleTypeOf field_type))

/-- Loop over the field elements of the field-sequence container
(`src/wsdl.rs` lines 134-203), inserting each field into the field map. -/
def extractFieldsLoop : List Node → List (String × (TypeAttribute × SimpleType)) →
    PResult (List (String × (TypeAttribute × SimpleType)))
  | [], acc => .ok acc
  | f :: rest, acc =>
    (extractField f).bind fun nts => extractFieldsLoop rest (hmInsert acc nts.1 nts.2)

/-- Shape normalization for one type declaration (`src/wsdl.rs` lines
122-130): a bare `complexType` element is its own body; anything else (an
`element` wrapper) must have a first child that is an element node. -/
def resolveChild (elem : Node) : PResult Node :=
  if elem.name = "complexType" then .ok elem
  else
    (PResult.ofOption elem.children.head? .Empty).bind fun c0 =>
    PResult.ofOption c0.asElement .NotAnElement

/-- Extraction of one named type declaration (`src/wsdl.rs` lines 112-209):
required `name` attribute, shape normalization, then the field loop over the
children of the body's first child element; a body that is not a
`complexType` hits `unimplemented!` and panics. -/
def extractType (elem : Node) : PResult (String × Ty) :=
  (PResult.ofOption (elem.getAttr "name") (.AttributeNotFound "name")).bind fun name =>
  (resolveChild elem).bind fun child =>
  if child.name = "complexType" then
    (PResult.ofOption child.children.head? .Empty).bind fun s0 =>
    (PResult.ofOption s0.asElement .NotAnElement).bind fun seqEl =>
    (extractFieldsLoop seqEl.elemChildren []).bind fun fields =>
    .ok (name, .Complex ⟨fields⟩)
  else .panic "not a complex type"

/-- Loop over the type declarations under the schema root (`src/wsdl.rs`
lines 110-210). -/
def extractTypesLoop : List Node → List (String × Ty) → PResult (List (String × Ty))
  | [], acc => .ok acc
  | e :: rest, acc =>
    (extractType e).bind fun nt => extractTypesLoop rest (hmInsert acc nt.1 nt.2)

/-- Extraction of one `message` element (`src/wsdl.rs` lines 218-248):
required `name`, then an unchecked `unwrap` of the first child element (the
sole part), whose `name` and `element` attributes are required; the
`element` value is namespace-stripped. -/
def extractMessage (message : Node) : PResult (String × Message) :=
  (PResult.ofOption (message.getAttr "name") (.AttributeNotFound "name")).bind fun name =>
  (PResult.unwrapOption message.elemChildren.head?).bind fun c =>
  (PResult.ofOption (c.getAttr "name") (.AttributeNotFound "name")).bind fun part_name =>
  (PResult.ofOption (c.getAttr "element") (.AttributeNotFound "element")).bind fun el =>
  .ok (name, ⟨part_name, split_namespace el⟩)

/-- Loop over the root's `message` children (`src/wsdl.rs` lines 212-249). -/
def extractMessagesLoop : List Node → List (String × Message) → PResult (List (String × Message))
  | [], acc => .ok acc
  | m :: rest, acc =>
    (extractMessage m).bind fun nm => extractMessagesLoop rest (hmInsert acc nm.1 nm.2)

/-- The loop body over an operation's children that carry a `message`
attribute (`src/wsdl.rs` lines 264-290), threading the `input`, `output`
and `faults` accumulators; a tag other than `input` / `output` / `fault`
returns `ElementNotFound "operation member"`. -/
def opLoop : List Node → Option String → Option String → Option (List String) →
    PResult (Option String × Option String × Option (List String))
  | [], i, o, f => .ok (i, o, f)
  | child :: rest, i, o, f =>
    match child.getAttr "message" with
    | none => .err (.AttributeNotFound "message")
    | some m =>
      let message := split_namespace m
      if child.name = "input" then opLoop rest (some message) o f
      else if child.name = "output" then opLoop rest i (some message) f
      else if child.name = "fault" then opLoop rest i o (some (f.getD [] ++ [message]))
      else .err (.ElementNotFound "operation member")

/-- Extraction of one operation under `portType` (`src/wsdl.rs` lines
255-300): required `name`, then the loop over children filtered to those
with a `message` attribute. -/
def extractOperation (operation : Node) : PResult (String × Operation) :=
  (PResult.ofOption (operation.getAttr "name") (.AttributeNotFound "name")).bind
    fun operation_name =>
  (opLoop (operation.elemChildren.filter fun c => (c.getAttr "message").isSome)
      none none none).bind fun iof =>
  .ok (operation_name, ⟨operation_name, iof.1, iof.2.1, iof.2.2⟩)

/-- Loop over the `portType` element's children (`src/wsdl.rs` lines
255-301). -/
def extractOperationsLoop : List Node → List (String × Operation) →
    PResult (List (String × Operation))
  | [], acc => .ok acc
  | op :: rest, acc =>
    (extractOperation op).bind fun no => extractOperationsLoop rest (hmInsert acc no.1 no.2)

/-- Models `parse` (`src/wsdl.rs` lines 88-324) from the already-parsed XML
root element: the five stages in source order (target namespace, type
table, message table, operation table, service name). -/
def parse (elements : Node) : PResult Wsdl :=
  (PResult.ofOption (elements.getAttr "targetNamespace")
      (.AttributeNotFound "targetNamespace")).bind fun target_namespace =>
  (PResult.ofOption (elements.getChild "types") (.ElementNotFound "types")).bind
    fun typesOuter =>
  (PResult.ofOption typesOuter.elemChildren.head? .Empty).bind fun types_el =>
  (extractTypesLoop types_el.elemChildren []).bind fun types =>
  (extractMessagesLoop (elements.elemChildren.filter fun c => c.name == "message")
      []).bind fun messages =>
  (PResult.ofOption (elements.getChild "portType") (.ElementNotFound "portType")).bind
    fun port_type_el =>
  (extractOperationsLoop port_type_el.elemChildren []).bind fun operations =>
  (PResult.ofOption (elements.getChild "service") (.ElementNotFound "service")).bind
    fun svc =>
  (PResult.ofOption (svc.getAttr "name") (.AttributeNotFound "name")).bind
    fun service_name =>
  .ok ⟨service_name, target_namespace, types, messages, operations⟩

/-! Concrete documents used as witnesses and counterexamples. -/

/-- A one-type, one-message, one-operation document: complex type `Person`
with fields `name : xsd:string` and `age : xsd:int (minOccurs 0, maxOccurs
1)`, message `PersonMsg` with part `p` over element `tns:Person`, operation
`GetPerson` with input `tns:PersonMsg`, service `PersonService`. -/
def minimalDoc : Node :=
  .element "definitions" [("targetNamespace", "urn:person")]
    [ .element "types" []
        [ .element "schema" []
            [ .element "complexType" [("name", "Person")]
                [ .element "sequence" []
                    [ .element "element" [("name", "name"), ("type", "xsd:string")] []
                    , .element "element"
                        [("name", "age"), ("type", "xsd:int"),
                         ("minOccurs", "0"), ("maxOccurs", "1")] [] ] ] ] ]
    , .element "message" [("name", "PersonMsg")]
        [ .element "part" [("name", "p"), ("element", "tns:Person")] [] ]
    , .element "portType" [("name", "PersonPort")]
        [ .element "operation" [("name", "GetPerson")]
            [ .element "input" [("message", "tns:PersonMsg")] [] ] ]
    , .element "service" [("name", "PersonService")] [] ]

/-- The field table `parse` extracts for `Person` from `minimalDoc`. -/
def personFields : List (String × (TypeAttribute × SimpleType)) :=
  [ ("age", (⟨true, none, none⟩, .Int))
  , ("name", (⟨false, none, none⟩, .String)) ]

/-- The document value `parse` extracts from `minimalDoc`. -/
def personWsdl : Wsdl :=
  { name := "PersonService"
  , target_namespace := "urn:person"
  , types := [("Person", .Complex ⟨personFields⟩)]
  , messages := [("PersonMsg", ⟨"p", "Person"⟩)]
  , operations := [("GetPerson", ⟨"GetPerson", some "PersonMsg", none, none⟩)] }

/-- A `types` section whose schema declares no types. -/
def typesSectionEmpty : Node :=
  .element "types" [] [.element "schema" [] []]

/-- Root with no `targetNamespace` attribute. -/
def docNoTargetNamespace : Node :=
  .element "definitions" [] []

/-- Root with a target namespace but no `types` child. -/
def docNoTypes : Node :=
  .element "definitions" [("targetNamespace", "urn:x")] []

/-- Root with an empty schema but no `portType` child. -/
def docNoPortType : Node :=
  .element "definitions" [("targetNamespace", "urn:x")] [typesSectionEmpty]

/-- Root with an empty schema and empty port type but no `service` child. -/
def docNoService : Node :=
  .element "definitions" [("targetNamespace", "urn:x")]
    [typesSectionEmpty, .element "portType" [] []]

/-- A type declaration with no `name` attribute. -/
def docTypeNoName : Node :=
  .element "definitions" [("targetNamespace", "urn:x")]
    [.element "types" [] [.element "schema" [] [.element "complexType" [] []]]]

/-- A field with a `type` attribute but no `name` attribute. -/
def docFieldNoName : Node :=
  .element "definitions" [("targetNamespace", "urn:x")]
    [.element "types" []
      [.element "schema" []
        [.element "complexType" [("name", "T")]
          [.element "sequence" [] [.element "element" [("type", "xsd:string")] []]]]]]

/-- A field with a `name` attribute but no `type` attribute. -/
def docFieldNoType : Node :=
  .element "definitions" [("targetNamespace", "urn:x")]
    [.element "types" []
      [.element "schema" []
        [.element "complexType" [("name", "T")]
          [.element "sequence" [] [.element "element" [("name", "f")] []]]]]]

/-- A `message` element with no `name` attribute. -/
def docMessageNoName : Node :=
  .element "definitions" [("targetNamespace", "urn:x")]
    [typesSectionEmpty,
     .element "message" [] [.element "part" [("name", "p"), ("element", "E")] []]]

/-- A message part with an `element` attribute but no `name` attribute. -/
def docPartNoName : Node :=
  .element "definitions" [("targetNamespace", "urn:x")]
    [typesSectionEmpty,
     .element "message" [("name", "M")] [.element "part" [("element", "E")] []]]

/-- A message part with a `name` attribute but no `element` attribute. -/
def docPartNoElement : Node :=
  .element "definitions" [("targetNamespace", "urn:x")]
    [typesSectionEmpty,
     .element "message" [("name", "M")] [.element "part" [("name", "p")] []]]

/-- A type declaration whose normalized body is a `simpleType`, hitting the
`unimplemented!` branch. -/
def docBadTypeShape : Node :=
  .element "definitions" [("targetNamespace", "urn:x")]
    [.element "types" []
      [.element "schema" []
        [.element "element" [("name", "X")] [.element "simpleType" [] []]]]]

/-- A `message` element with a `name` attribute but no element children, so
the source's `unwrap` of the first part panics. -/
def docMessageNoPart : Node :=
  .element "definitions" [("targetNamespace", "urn:x")]
    [typesSectionEmpty, .element "message" [("name", "M")] []]

/-- A field whose `minOccurs` is neither numeric nor `"unbounded"`, so the
source's `expect` panics. -/
def docBadOccurs : Node :=
  .element "definitions" [("targetNamespace", "urn:x")]
    [.element "types" []
      [.element "schema" []
        [.element "complexType" [("name", "T")]
          [.element "sequence" []
            [.element "element"
              [("name", "f"), ("type", "xsd:string"), ("minOccurs", "abc")] []]]]]]

/-! Helper lemmas. -/

theorem PResult.ok_bind {α β : Type} (a : α) (f : α → PResult β) :
    (PResult.ok a).bind f = f a := rfl

theorem PResult.bind_eq_ok {α β : Type} {x : PResult α} {f : α → PResult β} {b : β} :
    x.bind f = .ok b ↔ ∃ a, x = .ok a ∧ f a = .ok b := by
  cases x <;> simp [PResult.bind]

theorem lookup_mem {β : Type} {l : List (String × β)} {k : String} {v : β}
    (h : l.lookup k = some v) : (k, v) ∈ l := by
  induction l with
  | nil => simp [List.lookup] at h
  | cons p rest ih =>
    obtain ⟨a, b⟩ := p
    rw [List.lookup] at h
    by_cases hk : (k == a) = true
    · rw [hk] at h
      obtain rfl : b = v := Option.some.inj h
      obtain rfl : k = a := eq_of_beq hk
      exact List.mem_cons_self _ _
    · rw [Bool.not_eq_true] at hk
      rw [hk] at h
      exact List.mem_cons_of_mem _ (ih h)

theorem dropThroughColon_eq_none {l : List Char} (h : ':' ∉ l) :
    dropThroughColon l = none := by
  induction l with
  | nil => rfl
  | cons c rest ih =>
    rw [dropThroughColon, if_neg, ih (fun hm => h (List.mem_cons_of_mem _ hm))]
    intro hc
    exact h (hc ▸ List.mem_cons_self c rest)

theorem split_namespace_no_colon {s : String} (h : ':' ∉ s.data) :
    split_namespace s = s := by
  rw [split_namespace, dropThroughColon_eq_none h]

/-! Claim theorems. -/

/-- C1: for every extracted field, if `minOccurs` parses to `Num 0` and
`maxOccurs` parses to `Num 1` the resulting `TypeAttribute` is exactly
`⟨true, none, none⟩` regardless of the literal `nillable` attribute; if both
parse to `Num 1` it is exactly `⟨false, none, none⟩`; for every other
combination the parsed bounds and the nillable flag derived from the
`nillable` attribute pass through unmodified. -/
theorem c1_occurs_normalization (nilA minA maxA : Option String)
    (mi ma : Option Occurence)
    (hmin : parseOccAttr minA = .ok mi) (hmax : parseOccAttr maxA = .ok ma) :
    (mi = some (.Num 0) ∧ ma = some (.Num 1) →
      mkTypeAttribute nilA minA maxA = .ok ⟨true, none, none⟩) ∧
    (mi = some (.Num 1) ∧ ma = some (.Num 1) →
      mkTypeAttribute nilA minA maxA = .ok ⟨false, none, none⟩) ∧
    (¬(mi = some (.Num 0) ∧ ma = some (.Num 1)) →
      ¬(mi = some (.Num 1) ∧ ma = some (.Num 1)) →
      mkTypeAttribute nilA minA maxA = .ok ⟨parseNillableAttr nilA, mi, ma⟩) := by
  rw [mkTypeAttribute, hmin, PResult.ok_bind, hmax, PResult.ok_bind]
  refine ⟨?_, ?_, ?_⟩
  · rintro ⟨rfl, rfl⟩
    rw [normalizeOcc, if_pos ⟨rfl, rfl⟩]
  · rintro ⟨rfl, rfl⟩
    rw [normalizeOcc, if_neg (by simp), if_pos ⟨rfl, rfl⟩]
  · intro hn1 hn2
    rw [normalizeOcc, if_neg hn1, if_neg hn2]

/-- C1 witness. -/
theorem c1_occurs_normalization_witness :
    mkTypeAttribute (some "false") (some "0") (some "1") = .ok ⟨true, none, none⟩ ∧
    mkTypeAttribute (some "true") (some "1") (some "1") = .ok ⟨false, none, none⟩ ∧
    mkTypeAttribute (some "true") (some "2") (some "unbounded") =
      .ok ⟨true, some (.Num 2), some .Unbounded⟩ :=
  ⟨(c1_occurs_normalization (some "false") (some "0") (some "1")
      (some (.Num 0)) (some (.Num 1)) rfl rfl).1 ⟨rfl, rfl⟩,
   (c1_occurs_normalization (some "true") (some "1") (some "1")
      (some (.Num 1)) (some (.Num 1)) rfl rfl).2.1 ⟨rfl, rfl⟩,
   (c1_occurs_normalization (some "true") (some "2") (some "unbounded")
      (some (.Num 2)) (some .Unbounded) rfl rfl).2.2 (by simp) (by simp)⟩

/-- C2: after stripping the namespace prefix from a field's declared type
string, each of the five local names `boolean`, `string`, `int`, `float`,
`dateTime` maps case-sensitively to the corresponding `SimpleType` variant,
and every other local name maps to `SimpleType.Complex` carrying that local
name. -/
theorem c2_type_classification (s : String) :
    (split_namespace s = "boolean" → simpleTypeOf s = .Boolean) ∧
    (split_namespace s = "string" → simpleTypeOf s = .String) ∧
    (split_namespace s = "int" → simpleTypeOf s = .Int) ∧
    (split_namespace s = "float" → simpleTypeOf s = .Float) ∧
    (split_namespace s = "dateTime" → simpleTypeOf s = .DateTime) ∧
    (split_namespace s ∉ ["boolean", "string", "int", "float", "dateTime"] →
      simpleTypeOf s = .Complex (split_namespace s)) := by
  rw [simpleTypeOf, classify]
  refine ⟨?_, ?_, ?_, ?_, ?_, ?_⟩ <;> intro h
  · rw [if_pos h]
  · rw [if_neg (by rw [h]; decide), if_pos h]
  · rw [if_neg (by rw [h]; decide), if_neg (by rw [h]; decide), if_pos h]
  · rw [if_neg (by rw [h]; decide), if_neg (by rw [h]; decide),
      if_neg (by rw [h]; decide), if_pos h]
  · rw [if_neg (by rw [h]; decide), if_neg (by rw [h]; decide),
      if_neg (by rw [h]; decide), if_neg (by rw [h]; decide), if_pos h]
  · simp only [List.mem_cons, List.not_mem_nil, or_false, not_or] at h
    obtain ⟨h1, h2, h3, h4, h5⟩ := h
    rw [if_neg h1, if_neg h2, if_neg h3, if_neg h4, if_neg h5]

/-- C2 witness. -/
theorem c2_type_classification_witness :
    simpleTypeOf "xsd:boolean" = .Boolean ∧
    simpleTypeOf "xsd:dateTime" = .DateTime ∧
    simpleTypeOf "xsd:Person" = .Complex "Person" :=
  ⟨(c2_type_classification "xsd:boolean").1 rfl,
   (c2_type_classification "xsd:dateTime").2.2.2.2.1 rfl,
   (c2_type_classification "xsd:Person").2.2.2.2.2 (by decide)⟩

/-- C3 counterexample: namespace-prefix stripping is not idempotent for
every input string; `"a:b:c"` strips to `"b:c"`, which strips again to
`"c"`. -/
theorem c3_strip_idempotent_counterexample :
    split_namespace (split_namespace "a:b:c") ≠ split_namespace "a:b:c" := by
  decide

/-- C3 (amended): for every type string whose namespace-stripped local name
contains no colon (in particular every `"ns:Local"` with colon-free
`Local`), stripping the prefix of the already-stripped name changes
nothing, and the extractor's field-type classification treats the qualified
and the unqualified spelling identically. -/
theorem c3_strip_idempotent_amended (s : String)
    (h : ':' ∉ (split_namespace s).data) :
    split_namespace (split_namespace s) = split_namespace s ∧
    simpleTypeOf (split_namespace s) = simpleTypeOf s := by
  refine ⟨split_namespace_no_colon h, ?_⟩
  rw [simpleTypeOf, simpleTypeOf, split_namespace_no_colon h]

/-- C3 witness. -/
theorem c3_strip_idempotent_amended_witness :
    split_namespace (split_namespace "xsd:Person") = split_namespace "xsd:Person" ∧
    simpleTypeOf (split_namespace "xsd:Person") = simpleTypeOf "xsd:Person" :=
  c3_strip_idempotent_amended "xsd:Person" (by decide)

/-- C4: a type declared as a bare `complexType` element carrying the `name`
attribute and one declared as an `element` wrapper (with the same `name`
attribute) around an unnamed `complexType` with identical inner field
content produce identical extraction results: the same key and identical
`Ty.Complex` values. -/
theorem c4_dual_shape (X : String) (attrs1 attrs2 innerAttrs : List (String × String))
    (C : List Node)
    (h1 : attrs1.lookup "name" = some X) (h2 : attrs2.lookup "name" = some X) :
    extractType (.element "complexType" attrs1 C) =
      extractType (.element "element" attrs2 [.element "complexType" innerAttrs C]) := by
  rw [extractType, extractType, resolveChild, resolveChild]
  simp only [Node.getAttr, Node.attributes, Node.name, Node.children, h1, h2,
    Node.asElement, List.head?, PResult.ofOption, PResult.ok_bind,
    eq_self_iff_true, if_true,
    if_pos rfl, if_neg (by decide : ¬("element" = "complexType"))]

/-- C4 witness. -/
theorem c4_dual_shape_witness :
    extractType (.element "complexType" [("name", "T")]
        [.element "sequence" [] [.element "element" [("name", "f"), ("type", "xsd:int")] []]]) =
      extractType (.element "element" [("name", "T")]
        [.element "complexType" []
          [.element "sequence" [] [.element "element" [("name", "f"), ("type", "xsd:int")] []]]]) :=
  c4_dual_shape "T" [("name", "T")] [("name", "T")] []
    [.element "sequence" [] [.element "element" [("name", "f"), ("type", "xsd:int")] []]]
    rfl rfl

/-- C5: each of the required sites yields its specific error: a missing
`targetNamespace` on the root, a missing `types` / `portType` / `service`
child of the root, a missing `name` on a type declaration, a missing `name`
or `type` on a field, and a missing `name` on a message or a missing `name`
or `element` on its part. -/
theorem c5_error_sites :
    parse docNoTargetNamespace = .err (.AttributeNotFound "targetNamespace") ∧
    parse docNoTypes = .err (.ElementNotFound "types") ∧
    parse docNoPortType = .err (.ElementNotFound "portType") ∧
    parse docNoService = .err (.ElementNotFound "service") ∧
    parse docTypeNoName = .err (.AttributeNotFound "name") ∧
    parse docFieldNoName = .err (.AttributeNotFound "name") ∧
    parse docFieldNoType = .err (.AttributeNotFound "type") ∧
    parse docMessageNoName = .err (.AttributeNotFound "name") ∧
    parse docPartNoName = .err (.AttributeNotFound "name") ∧
    parse docPartNoElement = .err (.AttributeNotFound "element") :=
  ⟨rfl, rfl, rfl, rfl, rfl, rfl, rfl, rfl, rfl, rfl⟩

/-- Helper for C6: if every node of the list carries a `message` attribute
and some node's tag is none of `input`, `output`, `fault`, the operation
member loop returns `ElementNotFound "operation member"` from any starting
state. -/
theorem opLoop_err_of_bad :
    ∀ (cs : List Node), (∀ c ∈ cs, (c.getAttr "message").isSome = true) →
    ∀ c ∈ cs, c.name ≠ "input" → c.name ≠ "output" → c.name ≠ "fault" →
    ∀ i o f, opLoop cs i o f = .err (.ElementNotFound "operation member") := by
  intro cs
  induction cs with
  | nil => intro _ c hc; cases hc
  | cons d rest ih =>
    intro hall c hc h1 h2 h3 i o f
    obtain ⟨m, hm⟩ := Option.isSome_iff_exists.mp (hall d (List.mem_cons_self d rest))
    simp only [opLoop, hm]
    have hrest : ∀ c ∈ rest, (c.getAttr "message").isSome = true :=
      fun e he => hall e (List.mem_cons_of_mem d he)
    rcases List.mem_cons.mp hc with rfl | hc
    · rw [if_neg h1, if_neg h2, if_neg h3]
    · by_cases hd1 : d.name = "input"
      · rw [if_pos hd1]; exact ih hrest c hc h1 h2 h3 _ _ _
      · by_cases hd2 : d.name = "output"
        · rw [if_neg hd1, if_pos hd2]; exact ih hrest c hc h1 h2 h3 _ _ _
        · by_cases hd3 : d.name = "fault"
          · rw [if_neg hd1, if_neg hd2, if_pos hd3]; exact ih hrest c hc h1 h2 h3 _ _ _
          · rw [if_neg hd1, if_neg hd2, if_neg hd3]

/-- C6: an operation child element that carries a `message` attribute but
whose tag name is neither `input`, `output` nor `fault` makes extraction
return `ElementNotFound "operation member"` (first conjunct: never a silent
skip), while a child that is not an element or carries no `message`
attribute is not considered at all (second conjunct: dropping it leaves the
extraction result unchanged). -/
theorem c6_operation_member :
    (∀ (op : Node) (nm : String), op.getAttr "name" = some nm →
      ∀ c ∈ op.elemChildren, (c.getAttr "message").isSome = true →
      c.name ≠ "input" → c.name ≠ "output" → c.name ≠ "fault" →
      extractOperation op = .err (.ElementNotFound "operation member")) ∧
    (∀ (tag : String) (attrs : List (String × String)) (c : Node) (rest : List Node),
      c.asElement = none ∨ c.getAttr "message" = none →
      extractOperation (.element tag attrs (c :: rest)) =
        extractOperation (.element tag attrs rest)) := by
  constructor
  · intro op nm hnm c hc hmsg h1 h2 h3
    rw [extractOperation, hnm, PResult.ofOption, PResult.ok_bind,
      opLoop_err_of_bad _ (fun d hd => (List.mem_filter.mp hd).2) c
        (List.mem_filter.mpr ⟨hc, hmsg⟩) h1 h2 h3 none none none]
    rfl
  · intro tag attrs c rest hdrop
    rcases hdrop with hdrop | hdrop
    · rw [extractOperation, extractOperation]
      simp [Node.getAttr, Node.attributes, Node.elemChildren, Node.children,
        List.filterMap_cons, hdrop]
    · rw [extractOperation, extractOperation]
      cases c with
      | text s =>
        simp [Node.getAttr, Node.attributes, Node.elemChildren, Node.children,
          List.filterMap_cons, Node.asElement]
      | element n a ch =>
        simp only [Node.getAttr, Node.attributes] at hdrop
        simp [Node.getAttr, Node.attributes, Node.elemChildren, Node.children,
          List.filterMap_cons, Node.asElement, List.filter_cons, hdrop]

/-- C6 witness. -/
theorem c6_operation_member_witness :
    extractOperation (.element "operation" [("name", "Op")]
        [.element "bogus" [("message", "tns:M")] []]) =
      .err (.ElementNotFound "operation member") ∧
    extractOperation (.element "operation" [("name", "Op")]
        [.element "documentation" [] []]) =
      extractOperation (.element "operation" [("name", "Op")] []) :=
  ⟨c6_operation_member.1 (.element "operation" [("name", "Op")]
      [.element "bogus" [("message", "tns:M")] []]) "Op" rfl
      (.element "bogus" [("message", "tns:M")] [])
      (List.mem_cons_self _ _) rfl (by decide) (by decide) (by decide),
   c6_operation_member.2 "operation" [("name", "Op")]
      (.element "documentation" [] []) [] (Or.inr rfl)⟩

/-- C7: a type declaration whose shape-normalized body is not a
`complexType` element makes extraction fail (the source's `unimplemented!`
panic): the declaration is never silently skipped and no value is returned,
neither for the declaration nor — as the concrete `docBadTypeShape` run
shows — for the whole document. -/
theorem c7_unsupported_type_shape (elem : Node) (nm : String) (child : Node)
    (h1 : elem.getAttr "name" = some nm) (h2 : resolveChild elem = .ok child)
    (h3 : child.name ≠ "complexType") :
    extractType elem = .panic "not a complex type" ∧
    (∀ p, extractType elem ≠ .ok p) ∧
    parse docBadTypeShape = .panic "not a complex type" ∧
    (∀ w, parse docBadTypeShape ≠ .ok w) := by
  have hmain : extractType elem = .panic "not a complex type" := by
    rw [extractType, h1, PResult.ofOption, PResult.ok_bind, h2, PResult.ok_bind,
      if_neg h3]
  have hdoc : parse docBadTypeShape = .panic "not a complex type" := rfl
  refine ⟨hmain, ?_, hdoc, ?_⟩
  · intro p hp
    rw [hmain] at hp
    exact PResult.noConfusion hp
  · intro w hw
    rw [hdoc] at hw
    exact PResult.noConfusion hw

/-- C7 witness. -/
theorem c7_unsupported_type_shape_witness :
    extractType (.element "element" [("name", "X")] [.element "simpleType" [] []]) =
      .panic "not a complex type" :=
  (c7_unsupported_type_shape
    (.element "element" [("name", "X")] [.element "simpleType" [] []]) "X"
    (.element "simpleType" [] []) rfl rfl (by decide)).1

/-- C8: `parse` is deterministic — two runs on the same input tree that
both return a document return equal documents: same service name and
target namespace, and the type, message and operation maps agree on every
key. -/
theorem c8_deterministic (e : Node) (w1 w2 : Wsdl)
    (ha : parse e = .ok w1) (hb : parse e = .ok w2) :
    w1.name = w2.name ∧ w1.target_namespace = w2.target_namespace ∧
    (∀ k, w1.types.lookup k = w2.types.lookup k) ∧
    (∀ k, w1.messages.lookup k = w2.messages.lookup k) ∧
    (∀ k, w1.operations.lookup k = w2.operations.lookup k) := by
  obtain rfl : w1 = w2 := PResult.ok.inj (ha.symm.trans hb)
  exact ⟨rfl, rfl, fun _ => rfl, fun _ => rfl, fun _ => rfl⟩

/-- C8 witness. -/
theorem c8_deterministic_witness :
    personWsdl.name = personWsdl.name ∧
    personWsdl.types.lookup "Person" = personWsdl.types.lookup "Person" :=
  ⟨(c8_deterministic minimalDoc personWsdl personWsdl rfl rfl).1,
   (c8_deterministic minimalDoc personWsdl personWsdl rfl rfl).2.2.1 "Person"⟩

/-- C9: `parse` is not total over well-formed inputs: a root `message`
child with a `name` attribute but no element children panics on the
unchecked `unwrap` of the first part, and a non-numeric, non-`"unbounded"`
`minOccurs` value panics via `expect`; neither run returns a `WsdlError`
or a document. -/
theorem c9_partiality :
    parse docMessageNoPart = .panic "called Option::unwrap on a None value" ∧
    (∀ er, parse docMessageNoPart ≠ .err er) ∧
    (∀ w, parse docMessageNoPart ≠ .ok w) ∧
    parse docBadOccurs = .panic "occurence should be a number" ∧
    (∀ er, parse docBadOccurs ≠ .err er) ∧
    (∀ w, parse docBadOccurs ≠ .ok w) := by
  have h1 : parse docMessageNoPart = .panic "called Option::unwrap on a None value" := rfl
  have h2 : parse docBadOccurs = .panic "occurence should be a number" := rfl
  refine ⟨h1, ?_, ?_, h2, ?_, ?_⟩ <;> intro x hx
  · rw [h1] at hx; exact PResult.noConfusion hx
  · rw [h1] at hx; exact PResult.noConfusion hx
  · rw [h2] at hx; exact PResult.noConfusion hx
  · rw [h2] at hx; exact PResult.noConfusion hx

/-- Helper for C10: a successful `extractType` always yields a `Complex`
value (the only `types.insert` site constructs `Type::Complex`). -/
theorem extractType_isComplex {e : Node} {p : String × Ty}
    (h : extractType e = .ok p) : p.2.isComplex = true := by
  rw [extractType] at h
  obtain ⟨nm, h1, h⟩ := PResult.bind_eq_ok.mp h
  obtain ⟨child, h2, h⟩ := PResult.bind_eq_ok.mp h
  by_cases hc : child.name = "complexType"
  · rw [if_pos hc] at h
    obtain ⟨s0, h3, h⟩ := PResult.bind_eq_ok.mp h
    obtain ⟨seqEl, h4, h⟩ := PResult.bind_eq_ok.mp h
    obtain ⟨fields, h5, h⟩ := PResult.bind_eq_ok.mp h
    obtain rfl : (nm, Ty.Complex ⟨fields⟩) = p := PResult.ok.inj h
    rfl
  · rw [if_neg hc] at h
    exact PResult.noConfusion h

/-- Helper for C10: the type-table loop only ever adds `Complex` values. -/
theorem extractTypesLoop_isComplex :
    ∀ (ds : List Node) (acc m : List (String × Ty)),
      (∀ p ∈ acc, p.2.isComplex = true) →
      extractTypesLoop ds acc = .ok m → ∀ p ∈ m, p.2.isComplex = true := by
  intro ds
  induction ds with
  | nil =>
    intro acc m hacc h
    rw [extractTypesLoop] at h
    obtain rfl : acc = m := PResult.ok.inj h
    exact hacc
  | cons d rest ih =>
    intro acc m hacc h
    rw [extractTypesLoop] at h
    obtain ⟨nt, h1, h2⟩ := PResult.bind_eq_ok.mp h
    refine ih _ _ ?_ h2
    intro p hp
    rcases List.mem_cons.mp hp with rfl | hp
    · exact extractType_isComplex h1
    · exact hacc p hp

/-- C10: every value stored in the `types` map of a successfully returned
document is `Ty.Complex`; `parse` never constructs the `Ty.Simple` variant
even though the data model admits it. -/
theorem c10_types_all_complex (e : Node) (w : Wsdl) (h : parse e = .ok w)
    (k : String) (t : Ty) (hl : w.types.lookup k = some t) :
    t.isComplex = true := by
  rw [parse] at h
  obtain ⟨tns, h1, h⟩ := PResult.bind_eq_ok.mp h
  obtain ⟨tOuter, h2, h⟩ := PResult.bind_eq_ok.mp h
  obtain ⟨tEl, h3, h⟩ := PResult.bind_eq_ok.mp h
  obtain ⟨types, h4, h⟩ := PResult.bind_eq_ok.mp h
  obtain ⟨msgs, h5, h⟩ := PResult.bind_eq_ok.mp h
  obtain ⟨pt, h6, h⟩ := PResult.bind_eq_ok.mp h
  obtain ⟨ops, h7, h⟩ := PResult.bind_eq_ok.mp h
  obtain ⟨svc, h8, h⟩ := PResult.bind_eq_ok.mp h
  obtain ⟨sn, h9, h⟩ := PResult.bind_eq_ok.mp h
  obtain rfl : Wsdl.mk sn tns types msgs ops = w := PResult.ok.inj h
  exact extractTypesLoop_isComplex tEl.elemChildren [] types
    (fun p hp => absurd hp (List.not_mem_nil p)) h4 (k, t) (lookup_mem hl)

/-- C10 witness. -/
theorem c10_types_all_complex_witness :
    Ty.isComplex (.Complex ⟨personFields⟩) = true :=
  c10_types_all_complex minimalDoc personWsdl rfl "Person" (.Complex ⟨personFields⟩) rfl

end Savon

